import Mathlib

/-!
Shallow embedding of the `tearUpGo` worker-pool core:

* `src/workpool/internal/sync/elasticbuf.go` — the elastic relay buffer
  (`ElasticBuf`, `NewElasticBuf`, `Run`);
* the worker-pool controller (`workerpool`, `NewWorkerpool`, `Start`,
  `Shutdown`, `Down`, `AddTask`, `spawnOneWorker`);
* the extended wait group (`ExtWaitGroup` with `Add`, `CompareAndAdd`,
  `Done`, `GetWaitCount`).

Go channels are modelled as bounded FIFO queues with a closed flag; the
concurrent system is modelled as a labelled small-step transition function
`stepFn` on a global `PoolState`, one label per atomic action a goroutine
can take (a `select` arm of the relay loop or of a worker, or a whole call
of one of the pool's methods).  Ghost fields (`admitted`, `dispatched`,
`executed`, `errLogs`) record the observable history.  `uint64` arithmetic
is `Nat` arithmetic modulo `2 ^ 64`; a `sync.WaitGroup` whose counter would
go negative sets the `panicked` flag (the Go runtime panic).
-/

namespace TearUpGo

/-- Tasks (`IWorkload` values) are identified by their id. -/
abbrev Task := Nat

/-- `2 ^ 64`, the modulus of Go's `uint64` arithmetic. -/
def UINT64 : Nat := 2 ^ 64

/-- A Go channel: a bounded FIFO buffer of tasks plus a closed flag. -/
structure Chan where
  cap : Nat
  elems : List Task
  closed : Bool
  deriving Repr, DecidableEq

/-- A send on the channel can complete immediately iff the buffer has a
free slot (a blocked receiver implies an empty buffer, hence a free slot). -/
def Chan.hasRoom (c : Chan) : Bool := c.elems.length < c.cap

/-- Enqueue one element at the back of the channel buffer. -/
def Chan.push (c : Chan) (x : Task) : Chan := { c with elems := c.elems ++ [x] }

/-- `defaultChanSize` from `elasticbuf.go`. -/
def defaultChanSize : Nat := 2

/-- A fresh open channel of capacity `defaultChanSize`, as made by
`NewElasticBuf` for both `In` and `Out`. -/
def mkChan : Chan := { cap := defaultChanSize, elems := [], closed := false }

/-- `NewElasticBuf`: the pair of the admission channel `In` and the
dispatch channel `Out`. -/
def newElasticBuf : Chan × Chan := (mkChan, mkChan)

/-- `ExtWaitGroup` from `src/src/sync/mutex.go`: an embedded
`sync.WaitGroup` counter `wg` plus the `uint64` mirror `waitCount`. -/
structure ExtWaitGroup where
  wg : Nat
  waitCount : Nat
  deriving Repr, DecidableEq

/-- `ExtWaitGroup.Add`: `WaitGroup.Add(n)` then `atomic.AddUint64`. -/
def ExtWaitGroup.add (w : ExtWaitGroup) (n : Nat) : ExtWaitGroup :=
  { wg := w.wg + n, waitCount := (w.waitCount + n) % UINT64 }

/-- `ExtWaitGroup.CompareAndAdd`:
`atomic.CompareAndSwapUint64(&waitCount, old, old+delta)`, and on success
also `WaitGroup.Add(delta)`; returns the success flag. -/
def ExtWaitGroup.compareAndAdd (w : ExtWaitGroup) (old delta : Nat) :
    Bool × ExtWaitGroup :=
  if w.waitCount = old then
    (true, { wg := w.wg + delta, waitCount := (old + delta) % UINT64 })
  else
    (false, w)

/-- `ExtWaitGroup.Done`: `WaitGroup.Done()` — which panics when the counter
is already zero (`none`) — then `atomic.AddUint64(&waitCount, ^uint64(0))`,
i.e. a wrapping decrement. -/
def ExtWaitGroup.done (w : ExtWaitGroup) : Option ExtWaitGroup :=
  if w.wg = 0 then none
  else some { wg := w.wg - 1, waitCount := (w.waitCount + (UINT64 - 1)) % UINT64 }

/-- `ExtWaitGroup.GetWaitCount`. -/
def ExtWaitGroup.getWaitCount (w : ExtWaitGroup) : Nat := w.waitCount

/-- Global state of one run of the pool: the `workerpool` record, the
`ElasticBuf`, the relay goroutine's local state, the live worker count,
and ghost observation fields. -/
structure PoolState where
  /-- `workerpool.workerCount`, the target capacity N. -/
  workerCount : Nat
  /-- `workerpool.down`. -/
  down : Bool
  /-- whether `cancel()` has been called on the pool's context. -/
  cancelled : Bool
  /-- `elasticJobBuf.In`, the admission channel. -/
  inCh : Chan
  /-- `elasticJobBuf.Out`, the dispatch channel. -/
  outCh : Chan
  /-- `elasticJobBuf.buf`, the relay loop's internal queue. -/
  buf : List Task
  /-- whether the relay loop has executed `eb.In = nil`. -/
  inNil : Bool
  /-- whether `Run` has been called (the relay goroutine exists). -/
  relayStarted : Bool
  /-- whether the relay goroutine has returned. -/
  relayDone : Bool
  /-- number of live `spawnOneWorker` goroutines. -/
  workers : Nat
  /-- the pool's embedded `ExtWaitGroup`. -/
  ewg : ExtWaitGroup
  /-- a Go runtime panic has occurred (crashes the process). -/
  panicked : Bool
  /-- ghost: number of `log.Println("Error: add task into closed pool")`. -/
  errLogs : Nat
  /-- ghost: tasks accepted on the admission channel `In`, in order. -/
  admitted : List Task
  /-- ghost: tasks the relay loop handed to the dispatch channel, in order. -/
  dispatched : List Task
  /-- ghost: tasks whose `Work()` has been executed, in order. -/
  executed : List Task
  deriving Repr, DecidableEq

/-- `NewWorkerpool(n)`: `nil` for `n <= 0`, otherwise a fresh pool. -/
def newWorkerpool (n : Int) : Option PoolState :=
  if n ≤ 0 then none
  else some
    { workerCount := n.toNat, down := false, cancelled := false
      inCh := mkChan, outCh := mkChan, buf := []
      inNil := false, relayStarted := false, relayDone := false
      workers := 0, ewg := { wg := 0, waitCount := 0 }
      panicked := false, errLogs := 0
      admitted := [], dispatched := [], executed := [] }

/-- A Go runtime panic: the whole process dies. -/
def panicState (s : PoolState) : PoolState := { s with panicked := true }

/-- A worker goroutine exits: `defer p.Done()` runs. -/
def workerExit (s : PoolState) : PoolState :=
  match s.ewg.done with
  | none => { s with workers := s.workers - 1, panicked := true }
  | some w => { s with workers := s.workers - 1, ewg := w }

/-- `Start()`: runs the relay loop, `p.Add(1)`, spawns one worker. -/
def start (s : PoolState) : PoolState :=
  { s with relayStarted := true, ewg := s.ewg.add 1, workers := s.workers + 1 }

/-- `Shutdown()`: if already down do nothing, else `close(In)` (a panic if
`In` is already closed) and set `down`. -/
def shutdown (s : PoolState) : PoolState :=
  if s.down then s
  else if s.inCh.closed then panicState s
  else { s with inCh := { s.inCh with closed := true }, down := true }

/-- `Down()`: if already down do nothing, else `close(In)`, `cancel()`,
set `down`. -/
def downNow (s : PoolState) : PoolState :=
  if s.down then s
  else if s.inCh.closed then panicState s
  else { s with inCh := { s.inCh with closed := true }, cancelled := true,
                down := true }

/-- The non-blocking send arm `case eb.Out <- work:` of `AddTask`'s
`select`: completes iff the channel (assumed open) has a free buffer slot. -/
def nbSend (c : Chan) (x : Task) : Option Chan :=
  if !c.closed && c.hasRoom then some (c.push x) else none

/-- `AddTask(work)`, translated line by line.  A blocking send on a full
admission channel leaves the call suspended (`none` — no completed state);
a send on a closed channel is a runtime panic.  The `select` with a
`default` arm takes the dispatch-send arm exactly when that send can
complete at once, i.e. when the open dispatch channel has a free buffer
slot; the `wc` read after the admission send equals `s.ewg.getWaitCount`
because the send does not touch the tracker. -/
def addTask (s : PoolState) (t : Task) : Option PoolState :=
  if s.down then
    some { s with errLogs := s.errLogs + 1 }
  else if s.ewg.getWaitCount = 0 then
    -- p.elasticJobBuf.In <- work; go p.spawnOneWorker()
    if s.inCh.closed then some (panicState s)
    else if s.inCh.hasRoom then
      some { s with inCh := s.inCh.push t, admitted := s.admitted ++ [t],
                    workers := s.workers + 1 }
    else none
  else if s.outCh.closed then some (panicState s)
  else if s.outCh.hasRoom then
    -- case p.elasticJobBuf.Out <- work:
    some { s with outCh := s.outCh.push t }
  -- default: p.elasticJobBuf.In <- work; maybe spawn
  else if s.inCh.closed then some (panicState s)
  else if s.inCh.hasRoom then
    if s.ewg.getWaitCount < s.workerCount then
      match s.ewg.compareAndAdd s.ewg.getWaitCount 1 with
      | (true, w) =>
        some { s with inCh := s.inCh.push t, admitted := s.admitted ++ [t],
                      ewg := w, workers := s.workers + 1 }
      | (false, w) =>
        some { s with inCh := s.inCh.push t, admitted := s.admitted ++ [t],
                      ewg := w }
    else
      some { s with inCh := s.inCh.push t, admitted := s.admitted ++ [t] }
  else none

/-- One atomic action of some goroutine. -/
inductive Label where
  /-- a call of `Start()` -/
  | start
  /-- a call of `Shutdown()` -/
  | shutdown
  /-- a call of `Down()` -/
  | downNow
  /-- a call of `AddTask(t)` -/
  | addTask (t : Task)
  /-- relay loop: `case e, ok := <-eb.In:` with `ok = true` -/
  | rIn
  /-- relay loop, `buf` non-empty: `ok = false`, so `eb.In = nil` -/
  | rInNil
  /-- relay loop, `buf` non-empty: `case eb.Out <- eb.buf[0]:` -/
  | rOut
  /-- relay loop, `buf` empty: `ok = false`, so `close(eb.Out); return` -/
  | rCloseOut
  /-- relay loop: `case <-ctx.Done(): return` -/
  | rCancel
  /-- a worker: `case job, ok := <-Out:` with `ok = true`, then `Work()` -/
  | wRecv
  /-- a worker: `ok = false` (dispatch closed and empty), `return` -/
  | wClosed
  /-- a worker: `case <-time.After(maxIdleDuration): return` -/
  | wTimeout
  /-- a worker: `case <-p.ctx.Done(): return` -/
  | wCancel
  deriving Repr, DecidableEq

/-- The atomic action of each label, assuming the process has not
panicked (see `stepFn`). -/
def stepGo (s : PoolState) : Label → Option PoolState
  | .start => if s.relayStarted then none else some (start s)
  | .shutdown => some (shutdown s)
  | .downNow => some (downNow s)
  | .addTask t => addTask s t
  | .rIn =>
    if s.relayStarted && !s.relayDone && !s.inNil then
      match s.inCh.elems with
      | [] => none
      | x :: r =>
        some { s with inCh := { s.inCh with elems := r }, buf := s.buf ++ [x] }
    else none
  | .rInNil =>
    if s.relayStarted && !s.relayDone && !s.inNil && !s.buf.isEmpty &&
        s.inCh.closed && s.inCh.elems.isEmpty then
      some { s with inNil := true }
    else none
  | .rOut =>
    if s.relayStarted && !s.relayDone && !s.outCh.closed && s.outCh.hasRoom then
      match s.buf with
      | [] => none
      | x :: r =>
        some { s with outCh := s.outCh.push x, buf := r,
                      dispatched := s.dispatched ++ [x] }
    else none
  | .rCloseOut =>
    if s.relayStarted && !s.relayDone && !s.inNil && s.buf.isEmpty &&
        s.inCh.closed && s.inCh.elems.isEmpty then
      some { s with outCh := { s.outCh with closed := true }, relayDone := true }
    else none
  | .rCancel =>
    if s.relayStarted && !s.relayDone && s.cancelled then
      some { s with relayDone := true }
    else none
  | .wRecv =>
    if s.workers != 0 then
      match s.outCh.elems with
      | [] => none
      | x :: r =>
        some { s with outCh := { s.outCh with elems := r },
                      executed := s.executed ++ [x] }
    else none
  | .wClosed =>
    if s.workers != 0 && s.outCh.closed && s.outCh.elems.isEmpty then
      some (workerExit s)
    else none
  | .wTimeout => if s.workers != 0 then some (workerExit s) else none
  | .wCancel =>
    if s.workers != 0 && s.cancelled then some (workerExit s) else none

/-- The labelled transition function: `some s'` when the action is enabled
in `s` and completes, `none` when it is not enabled (would block).  No
step is possible after a runtime panic (the process has died). -/
def stepFn (s : PoolState) (l : Label) : Option PoolState :=
  if s.panicked then none else stepGo s l

/-- Run a list of labels from a state, failing if any step is disabled. -/
def runTrace (s : PoolState) : List Label → Option PoolState
  | [] => some s
  | l :: ls =>
    match stepFn s l with
    | none => none
    | some s' => runTrace s' ls

/-- `Wait()` (the wait-for-drain) returns exactly when the embedded
`WaitGroup` counter is zero. -/
def waitReturns (s : PoolState) : Bool := s.ewg.wg == 0

/-- The admission policy in the words of the specification (refinement
target, to be compared with the source translation `addTask`): if the
tracker count is zero, send the task to the admission endpoint and spawn
exactly one new execution unit; otherwise attempt a non-blocking send onto
the dispatch endpoint; if that fails, send the task to the admission
endpoint and spawn one additional unit if and only if the observed tracker
count `wc` satisfies `wc < N` and the compare-and-increment from `wc`
succeeds. -/
def addTaskClaimPolicy (s : PoolState) (t : Task) : Option PoolState :=
  if s.ewg.getWaitCount = 0 then
    if s.inCh.hasRoom then
      some { s with inCh := s.inCh.push t, admitted := s.admitted ++ [t],
                    workers := s.workers + 1 }
    else none
  else
    match nbSend s.outCh t with
    | some c => some { s with outCh := c }
    | none =>
      if s.inCh.hasRoom then
        if s.ewg.getWaitCount < s.workerCount then
          match s.ewg.compareAndAdd s.ewg.getWaitCount 1 with
          | (true, w) =>
            some { s with inCh := s.inCh.push t,
                          admitted := s.admitted ++ [t],
                          ewg := w, workers := s.workers + 1 }
          | (false, w) =>
            some { s with inCh := s.inCh.push t,
                          admitted := s.admitted ++ [t], ewg := w }
        else
          some { s with inCh := s.inCh.push t, admitted := s.admitted ++ [t] }
      else none

/-- The pool produced by `NewWorkerpool(1)`. -/
def initPool1 : PoolState :=
  { workerCount := 1, down := false, cancelled := false
    inCh := mkChan, outCh := mkChan, buf := []
    inNil := false, relayStarted := false, relayDone := false
    workers := 0, ewg := { wg := 0, waitCount := 0 }
    panicked := false, errLogs := 0
    admitted := [], dispatched := [], executed := [] }

/-- Schedule exhibiting the lost-task run: `Start`, the initial worker
idles out, one `AddTask` on the zero-count path, then `Shutdown`. -/
def c1Trace : List Label := [.start, .wTimeout, .addTask 1, .shutdown]

/-- The run of `c1Trace` from `NewWorkerpool(1)`. -/
def c1Run : Option PoolState :=
  (newWorkerpool 1).bind (fun s => runTrace s c1Trace)

/-- Prefix of the `c5` schedule: right after the zero-count `AddTask`
spawned a worker without registering it. -/
def c5Prefix : List Label := [.start, .wTimeout, .addTask 1]

/-- The state after `c5Prefix`. -/
def c5Mid : Option PoolState :=
  (newWorkerpool 1).bind (fun s => runTrace s c5Prefix)

/-- Full `c5` schedule: the unregistered worker executes the task and then
exits, so its `Done()` decrements a zero `WaitGroup`. -/
def c5Trace : List Label :=
  [.start, .wTimeout, .addTask 1, .rIn, .rOut, .wRecv, .wTimeout]

/-- The run of `c5Trace` from `NewWorkerpool(1)`. -/
def c5Run : Option PoolState :=
  (newWorkerpool 1).bind (fun s => runTrace s c5Trace)

/-- Schedule on which the relay loop observes admission closure while the
internal queue is non-empty: tasks 1 and 2 fill the dispatch channel, task
3 goes through the admission channel, `Shutdown` closes admission, the
relay appends 3 to `buf`, observes closure (`eb.In = nil`), a worker frees
a slot, and the relay drains task 3 to the dispatch channel. -/
def c4Trace : List Label :=
  [.start, .addTask 1, .addTask 2, .addTask 3, .shutdown, .rIn, .rInNil,
   .wRecv, .rOut]

/-- The state reached by `c4Trace` from `NewWorkerpool(1)`: admission
closed and fully drained, yet the dispatch channel is still open. -/
def c4End : PoolState :=
  { workerCount := 1, down := true, cancelled := false
    inCh := { cap := 2, elems := [], closed := true }
    outCh := { cap := 2, elems := [2, 3], closed := false }
    buf := [], inNil := true, relayStarted := true, relayDone := false
    workers := 1, ewg := { wg := 1, waitCount := 1 }
    panicked := false, errLogs := 0
    admitted := [3], dispatched := [3], executed := [1] }

/-- A schedule in which a task traverses the whole buffered path. -/
def c3Trace : List Label :=
  [.start, .addTask 1, .addTask 2, .addTask 3, .rIn, .wRecv, .rOut]

/-- The state reached by `c3Trace` from `NewWorkerpool(1)`. -/
def c3End : PoolState :=
  { workerCount := 1, down := false, cancelled := false
    inCh := { cap := 2, elems := [], closed := false }
    outCh := { cap := 2, elems := [2, 3], closed := false }
    buf := [], inNil := false, relayStarted := true, relayDone := false
    workers := 1, ewg := { wg := 1, waitCount := 1 }
    panicked := false, errLogs := 0
    admitted := [3], dispatched := [3], executed := [1] }

/-- A state with a cancelled context and two buffered tasks, about to be
observed by the relay loop. -/
def c7S : PoolState :=
  { workerCount := 1, down := true, cancelled := true
    inCh := { cap := 2, elems := [], closed := true }
    outCh := mkChan, buf := [7, 8]
    inNil := false, relayStarted := true, relayDone := false
    workers := 0, ewg := { wg := 0, waitCount := 0 }
    panicked := false, errLogs := 0
    admitted := [7, 8], dispatched := [], executed := [] }

/-- `c7S` after the relay loop observes cancellation. -/
def c7T : PoolState := { c7S with relayDone := true }

/-- A pool that has been marked down. -/
def c9S : PoolState := { initPool1 with down := true }

/-- A pool whose tracker count is nonzero while no execution unit exists
at all — in particular none is waiting to receive. -/
def c10S : PoolState :=
  { initPool1 with workers := 0, ewg := { wg := 1, waitCount := 1 } }

/-- `workerExit` only touches `workers`, `ewg` and `panicked`. -/
@[simp] theorem workerExit_dispatched (s : PoolState) :
    (workerExit s).dispatched = s.dispatched := by
  unfold workerExit; cases hd : s.ewg.done <;> simp [hd]

/-- `workerExit` leaves the relay queue unchanged. -/
@[simp] theorem workerExit_buf (s : PoolState) :
    (workerExit s).buf = s.buf := by
  unfold workerExit; cases hd : s.ewg.done <;> simp [hd]

/-- `workerExit` leaves the admission channel unchanged. -/
@[simp] theorem workerExit_inCh (s : PoolState) :
    (workerExit s).inCh = s.inCh := by
  unfold workerExit; cases hd : s.ewg.done <;> simp [hd]

/-- `workerExit` leaves the admitted history unchanged. -/
@[simp] theorem workerExit_admitted (s : PoolState) :
    (workerExit s).admitted = s.admitted := by
  unfold workerExit; cases hd : s.ewg.done <;> simp [hd]

/-- `workerExit` leaves the `inNil` flag unchanged. -/
@[simp] theorem workerExit_inNil (s : PoolState) :
    (workerExit s).inNil = s.inNil := by
  unfold workerExit; cases hd : s.ewg.done <;> simp [hd]

/-- `workerExit` leaves the dispatch channel unchanged. -/
@[simp] theorem workerExit_outCh (s : PoolState) :
    (workerExit s).outCh = s.outCh := by
  unfold workerExit; cases hd : s.ewg.done <;> simp [hd]

/-- `workerExit` leaves the relay-loop status unchanged. -/
@[simp] theorem workerExit_relayDone (s : PoolState) :
    (workerExit s).relayDone = s.relayDone := by
  unfold workerExit; cases hd : s.ewg.done <;> simp [hd]

/-- Every step preserves the relay-buffer accounting equation: the tasks
already dispatched by the relay loop, followed by the internal queue,
followed by the admission channel's buffer, are exactly the tasks accepted
on the admission channel, in order. -/
theorem stepFn_fifo (s s' : PoolState) (l : Label) (h : stepFn s l = some s')
    (hinv : s.dispatched ++ (s.buf ++ s.inCh.elems) = s.admitted) :
    s'.dispatched ++ (s'.buf ++ s'.inCh.elems) = s'.admitted := by
  unfold stepFn at h
  split at h
  · exact Option.noConfusion h
  cases l <;> simp only [stepGo] at h
  case start =>
    split at h
    · exact Option.noConfusion h
    injection h with h; subst h
    simpa [start] using hinv
  case shutdown =>
    injection h with h; subst h
    unfold shutdown
    repeat' split
    all_goals simp_all [panicState]
  case downNow =>
    injection h with h; subst h
    unfold downNow
    repeat' split
    all_goals simp_all [panicState]
  case addTask t =>
    unfold addTask at h
    repeat' split at h
    all_goals try exact Option.noConfusion h
    all_goals injection h with h
    all_goals subst h
    all_goals simp [Chan.push, panicState, ← hinv, List.append_assoc]
  all_goals repeat' split at h
  all_goals try exact Option.noConfusion h
  all_goals injection h with h
  all_goals subst h
  all_goals simp_all [Chan.push, ← hinv, List.append_assoc]

/-- Once the relay loop has returned, it stays returned and no step ever
extends the dispatched sequence. -/
theorem stepFn_frozen (s s' : PoolState) (l : Label) (h : stepFn s l = some s')
    (hd : s.relayDone = true) :
    s'.relayDone = true ∧ s'.dispatched = s.dispatched := by
  unfold stepFn at h
  split at h
  · exact Option.noConfusion h
  cases l <;> simp only [stepGo] at h
  case start =>
    split at h
    · exact Option.noConfusion h
    injection h with h; subst h
    simp [start, hd]
  case shutdown =>
    injection h with h; subst h
    unfold shutdown
    repeat' split
    all_goals simp_all [panicState]
  case downNow =>
    injection h with h; subst h
    unfold downNow
    repeat' split
    all_goals simp_all [panicState]
  case addTask t =>
    unfold addTask at h
    repeat' split at h
    all_goals try exact Option.noConfusion h
    all_goals injection h with h
    all_goals subst h
    all_goals simp_all [Chan.push, panicState]
  all_goals repeat' split at h
  all_goals try exact Option.noConfusion h
  all_goals injection h with h
  all_goals subst h
  all_goals simp_all [Chan.push]

/-- Once the relay loop has set `eb.In = nil`, no step can ever close the
dispatch channel. -/
theorem stepFn_inNil (s s' : PoolState) (l : Label) (h : stepFn s l = some s')
    (h1 : s.inNil = true) (h2 : s.outCh.closed = false) :
    s'.inNil = true ∧ s'.outCh.closed = false := by
  unfold stepFn at h
  split at h
  · exact Option.noConfusion h
  cases l <;> simp only [stepGo] at h
  case start =>
    split at h
    · exact Option.noConfusion h
    injection h with h; subst h
    simp [start, h1, h2]
  case shutdown =>
    injection h with h; subst h
    unfold shutdown
    repeat' split
    all_goals simp_all [panicState]
  case downNow =>
    injection h with h; subst h
    unfold downNow
    repeat' split
    all_goals simp_all [panicState]
  case addTask t =>
    unfold addTask at h
    repeat' split at h
    all_goals try exact Option.noConfusion h
    all_goals injection h with h
    all_goals subst h
    all_goals simp_all [Chan.push, panicState]
  all_goals repeat' split at h
  all_goals try exact Option.noConfusion h
  all_goals injection h with h
  all_goals subst h
  all_goals simp_all [Chan.push]

/-- A property preserved by every enabled step is preserved by every run. -/
theorem runTrace_preserve (P : PoolState → Prop)
    (hstep : ∀ s l s', stepFn s l = some s' → P s → P s') :
    ∀ (ls : List Label) (s s' : PoolState),
      runTrace s ls = some s' → P s → P s' := by
  intro ls
  induction ls with
  | nil =>
    intro s s' h hp
    unfold runTrace at h
    injection h with h
    subst h
    exact hp
  | cons l ls ih =>
    intro s s' h hp
    unfold runTrace at h
    cases hs : stepFn s l with
    | none => rw [hs] at h; exact Option.noConfusion h
    | some s1 => rw [hs] at h; exact ih s1 s' h (hstep s l s1 hs hp)

/-- C3 — FIFO of the buffered path: in every reachable state of a pool
created by `newWorkerpool`, the tasks the relay loop has handed to the
dispatch channel, followed by the internal queue `buf`, followed by the
admission channel's buffer, are exactly the tasks accepted on the
admission endpoint in their admission order; in particular the dispatched
sequence is a prefix of the admitted sequence, so no item traversing the
buffer is ever delivered out of admission order. -/
theorem fifo_buffered_path (n : Int) (s0 s : PoolState) (ls : List Label)
    (h0 : newWorkerpool n = some s0) (h : runTrace s0 ls = some s) :
    s.dispatched ++ (s.buf ++ s.inCh.elems) = s.admitted ∧
    ∃ rest, s.dispatched ++ rest = s.admitted := by
  have hs0 : s0.dispatched ++ (s0.buf ++ s0.inCh.elems) = s0.admitted := by
    unfold newWorkerpool at h0
    split at h0
    · exact Option.noConfusion h0
    · injection h0 with h0; subst h0; rfl
  have hinv := runTrace_preserve
    (fun x => x.dispatched ++ (x.buf ++ x.inCh.elems) = x.admitted)
    (fun a l b hab ha => stepFn_fifo a b l hab ha) ls s0 s h hs0
  exact ⟨hinv, s.buf ++ s.inCh.elems, hinv⟩

/-- Witness for C3: the concrete schedule `c3Trace` from `NewWorkerpool(1)`
reaches `c3End`, and the theorem's conclusion holds there. -/
theorem fifo_buffered_path_witness :
    c3End.dispatched ++ (c3End.buf ++ c3End.inCh.elems) = c3End.admitted ∧
    ∃ rest, c3End.dispatched ++ rest = c3End.admitted :=
  fifo_buffered_path 1 initPool1 c3End c3Trace rfl rfl

/-- C7 — cancellation discards pending state: when the relay loop observes
the fired cancellation token (the `rCancel` step), it returns at once:
the buffered queue and the dispatch channel are left untouched, the loop
is done, and in every possible continuation of the run the relay loop
never hands over any further item (its dispatched sequence stays frozen),
no matter how many items remain buffered. -/
theorem cancel_observed_stops_relay (s s' : PoolState)
    (h : stepFn s .rCancel = some s') :
    s.cancelled = true ∧ s'.relayDone = true ∧ s'.buf = s.buf ∧
    s'.outCh = s.outCh ∧ s'.dispatched = s.dispatched ∧
    ∀ ls s2, runTrace s' ls = some s2 → s2.dispatched = s'.dispatched := by
  unfold stepFn at h
  split at h
  · exact Option.noConfusion h
  simp only [stepGo] at h
  split at h
  case isFalse.isTrue hb =>
    injection h with h
    subst h
    refine ⟨?_, rfl, rfl, rfl, rfl, ?_⟩
    · simp only [Bool.and_eq_true] at hb
      exact hb.2
    · intro ls s2 h2
      exact (runTrace_preserve
        (fun x => x.relayDone = true ∧ x.dispatched = s.dispatched)
        (fun a l b hab ha =>
          have hf := stepFn_frozen a b l hab ha.1
          ⟨hf.1, hf.2.trans ha.2⟩)
        ls _ s2 h2 ⟨rfl, rfl⟩).2
  case isFalse.isFalse => exact Option.noConfusion h

/-- Witness for C7: the concrete cancelled state `c7S` with two buffered
tasks steps to `c7T` and keeps its dispatched sequence frozen. -/
theorem cancel_observed_stops_relay_witness :
    c7S.cancelled = true ∧ c7T.relayDone = true ∧ c7T.buf = c7S.buf ∧
    c7T.outCh = c7S.outCh ∧ c7T.dispatched = c7S.dispatched ∧
    ∀ ls s2, runTrace c7T ls = some s2 → s2.dispatched = c7T.dispatched :=
  cancel_observed_stops_relay c7S c7T rfl

/-- C4 — the code violates drain-then-close: on the schedule `c4Trace` the
admission endpoint is closed while task 3 is still buffered; the relay
loop observes the closure, sets `eb.In = nil`, and drains the task to the
dispatch channel — so nothing is discarded — but from the reached state
`c4End` (admission closed, admission buffer empty, internal queue empty,
no cancellation) the dispatch channel is open and NO continuation of the
run ever closes it: the `close(eb.Out)` arm is unreachable once
`eb.In = nil`, because the empty-queue branch blocks forever on the nil
channel. -/
theorem drained_admission_closed_but_dispatch_never_closes :
    (newWorkerpool 1).bind (fun s => runTrace s c4Trace) = some c4End ∧
    c4End.inCh.closed = true ∧ c4End.inCh.elems = [] ∧ c4End.buf = [] ∧
    c4End.cancelled = false ∧ c4End.dispatched = c4End.admitted ∧
    c4End.outCh.closed = false ∧
    ∀ ls s', runTrace c4End ls = some s' → s'.outCh.closed = false := by
  refine ⟨rfl, rfl, rfl, rfl, rfl, rfl, rfl, ?_⟩
  intro ls s' h
  exact (runTrace_preserve
    (fun x => x.inNil = true ∧ x.outCh.closed = false)
    (fun a l b hab ha => stepFn_inNil a b l hab ha.1 ha.2)
    ls c4End s' h ⟨rfl, rfl⟩).2

/-- Witness for C4: the dispatch endpoint is still open in `c4End` itself
(the empty continuation). -/
theorem drained_admission_never_closes_witness :
    c4End.outCh.closed = false :=
  drained_admission_closed_but_dispatch_never_closes.2.2.2.2.2.2.2 [] c4End rfl

/-- C1 — the code violates completeness under graceful shutdown: on the
run `c1Trace` (capacity 1, `Start`, the initial worker idles out, one task
submitted by `AddTask` before `Shutdown`, the cancellation token never
fires) the zero-count path of `AddTask` spawns a worker WITHOUT
registering it with the tracker, so the `WaitGroup` counter is already 0
when `Shutdown` returns: `Wait()` is unblocked while the submitted task 1
has not been executed — the task is lost from the drain-wait's point of
view. -/
theorem graceful_completeness_fails_on_code :
    c1Run.map waitReturns = some true ∧
    c1Run.map PoolState.down = some true ∧
    c1Run.map PoolState.cancelled = some false ∧
    c1Run.map PoolState.admitted = some [1] ∧
    c1Run.map PoolState.executed = some [] ∧
    c1Run.map PoolState.panicked = some false :=
  ⟨rfl, rfl, rfl, rfl, rfl, rfl⟩

/-- C5 — the code violates per-unit tracker registration: after
`c5Prefix` the zero-count path of `AddTask` has spawned one live worker
while the tracker still reads 0 (no increment for that unit); when that
unit later exits (`c5Trace`), its `defer p.Done()` decrements a zero
`WaitGroup`, which is a runtime panic — the unit got one decrement but no
increment. -/
theorem unit_spawned_without_registration_panics :
    c5Mid.map PoolState.workers = some 1 ∧
    c5Mid.map (fun s => s.ewg.wg) = some 0 ∧
    c5Mid.map (fun s => s.ewg.waitCount) = some 0 ∧
    c5Run.map PoolState.executed = some [1] ∧
    c5Run.map PoolState.panicked = some true :=
  ⟨rfl, rfl, rfl, rfl, rfl⟩

/-- C2 — the admission policy of `AddTask` on a non-shut-down pool is
exactly the policy stated by the specification (`addTaskClaimPolicy`,
written from the claim's words): zero tracker count → admission endpoint
plus exactly one spawned unit; otherwise try the non-blocking dispatch
hand-off; on failure → admission endpoint, spawning one additional unit
iff the observed count `wc` is below capacity and the
compare-and-increment from `wc` succeeds. -/
theorem addTask_matches_claim_policy (s : PoolState) (t : Task)
    (h1 : s.down = false) (h2 : s.inCh.closed = false)
    (h3 : s.outCh.closed = false) :
    addTask s t = addTaskClaimPolicy s t := by
  unfold addTask addTaskClaimPolicy nbSend
  rw [h1, h2, h3]
  cases hr : s.outCh.hasRoom <;> simp [hr]

/-- Witness for C2: the fresh pool `initPool1` with task 5. -/
theorem addTask_matches_claim_policy_witness :
    addTask initPool1 5 = addTaskClaimPolicy initPool1 5 :=
  addTask_matches_claim_policy initPool1 5 rfl rfl rfl

/-- C6 — semantics of `CompareAndAdd` on the completion tracker: for any
observed `uint64` value `old` and any `uint64` delta, the call succeeds
iff the counter still equals `old` at the compare, in which case the
counter becomes `old + delta` (mod `2 ^ 64`) and the `WaitGroup` is
raised by `delta`; on failure it returns `false` and leaves the state
unchanged; and of two sequenced calls that both observed the same value
`old` (with a nonzero delta), at most one can succeed. -/
theorem compareAndAdd_semantics (w : ExtWaitGroup) (old delta : Nat)
    (hold : old < UINT64) (hdpos : delta ≠ 0) (hdlt : delta < UINT64) :
    ((w.compareAndAdd old delta).1 = true ↔ w.waitCount = old) ∧
    (w.waitCount = old →
      (w.compareAndAdd old delta).2.waitCount = (old + delta) % UINT64 ∧
      (w.compareAndAdd old delta).2.wg = w.wg + delta) ∧
    (w.waitCount ≠ old → (w.compareAndAdd old delta).1 = false ∧
      (w.compareAndAdd old delta).2 = w) ∧
    ¬((w.compareAndAdd old delta).1 = true ∧
      ((w.compareAndAdd old delta).2.compareAndAdd old delta).1 = true) := by
  refine ⟨?_, ?_, ?_, ?_⟩
  · unfold ExtWaitGroup.compareAndAdd
    split <;> simp_all
  · intro he
    unfold ExtWaitGroup.compareAndAdd
    simp [he]
  · intro he
    unfold ExtWaitGroup.compareAndAdd
    simp [he]
  · rintro ⟨ha, hb⟩
    by_cases he : w.waitCount = old
    · have h1 : w.compareAndAdd old delta =
          (true, { wg := w.wg + delta, waitCount := (old + delta) % UINT64 }) := by
        unfold ExtWaitGroup.compareAndAdd
        simp [he]
      rw [h1] at hb
      unfold ExtWaitGroup.compareAndAdd at hb
      split at hb
      · rename_i he2
        have he3 : (old + delta) % UINT64 = old := he2
        unfold UINT64 at he3 hold hdlt
        omega
      · exact Bool.noConfusion hb
    · have h1 : w.compareAndAdd old delta = (false, w) := by
        unfold ExtWaitGroup.compareAndAdd
        simp [he]
      rw [h1] at ha
      exact Bool.noConfusion ha

/-- Witness for C6: the fresh tracker, observed value 0, delta 1. -/
theorem compareAndAdd_semantics_witness :
    ((ExtWaitGroup.compareAndAdd ⟨0, 0⟩ 0 1).1 = true ↔
      (⟨0, 0⟩ : ExtWaitGroup).waitCount = 0) ∧
    ((⟨0, 0⟩ : ExtWaitGroup).waitCount = 0 →
      (ExtWaitGroup.compareAndAdd ⟨0, 0⟩ 0 1).2.waitCount = (0 + 1) % UINT64 ∧
      (ExtWaitGroup.compareAndAdd ⟨0, 0⟩ 0 1).2.wg =
        (⟨0, 0⟩ : ExtWaitGroup).wg + 1) ∧
    ((⟨0, 0⟩ : ExtWaitGroup).waitCount ≠ 0 →
      (ExtWaitGroup.compareAndAdd ⟨0, 0⟩ 0 1).1 = false ∧
      (ExtWaitGroup.compareAndAdd ⟨0, 0⟩ 0 1).2 = ⟨0, 0⟩) ∧
    ¬((ExtWaitGroup.compareAndAdd ⟨0, 0⟩ 0 1).1 = true ∧
      ((ExtWaitGroup.compareAndAdd ⟨0, 0⟩ 0 1).2.compareAndAdd 0 1).1 = true) :=
  compareAndAdd_semantics ⟨0, 0⟩ 0 1 (by norm_num [UINT64]) (by decide)
    (by norm_num [UINT64])

/-- C8 — shutdown semantics and idempotence: on a pool not yet down with
an open admission channel, `Shutdown()` closes the admission channel, sets
the down flag, does not fire the cancellation token and does not panic;
`Down()` additionally fires the cancellation token; and any second call of
`Shutdown()` or `Down()` after either is a strict no-op (no further
effect, no panic). -/
theorem shutdown_down_effects_and_idempotence (s : PoolState)
    (h1 : s.down = false) (h2 : s.inCh.closed = false) :
    shutdown s = { s with inCh := { s.inCh with closed := true },
                          down := true } ∧
    (shutdown s).cancelled = s.cancelled ∧
    (shutdown s).panicked = s.panicked ∧
    downNow s = { s with inCh := { s.inCh with closed := true },
                         cancelled := true, down := true } ∧
    (downNow s).panicked = s.panicked ∧
    shutdown (shutdown s) = shutdown s ∧
    downNow (shutdown s) = shutdown s ∧
    shutdown (downNow s) = downNow s ∧
    downNow (downNow s) = downNow s := by
  unfold shutdown downNow
  simp [h1, h2]

/-- Witness for C8: the fresh pool `initPool1`. -/
theorem shutdown_down_idempotence_witness :
    shutdown initPool1 =
      { initPool1 with inCh := { initPool1.inCh with closed := true },
                       down := true } ∧
    (shutdown initPool1).cancelled = initPool1.cancelled ∧
    (shutdown initPool1).panicked = initPool1.panicked ∧
    downNow initPool1 =
      { initPool1 with inCh := { initPool1.inCh with closed := true },
                       cancelled := true, down := true } ∧
    (downNow initPool1).panicked = initPool1.panicked ∧
    shutdown (shutdown initPool1) = shutdown initPool1 ∧
    downNow (shutdown initPool1) = shutdown initPool1 ∧
    shutdown (downNow initPool1) = downNow initPool1 ∧
    downNow (downNow initPool1) = downNow initPool1 :=
  shutdown_down_effects_and_idempotence initPool1 rfl rfl

/-- C9 — post-shutdown submission: on a pool whose down flag is set,
`AddTask` logs one diagnostic and returns at once; the call completes
(it neither blocks nor panics nor returns an error) and the whole pool
state except the ghost log counter is unchanged — nothing is enqueued,
spawned or executed. -/
theorem addTask_after_down_drops_task (s : PoolState) (t : Task)
    (h : s.down = true) :
    addTask s t = some { s with errLogs := s.errLogs + 1 } := by
  unfold addTask
  rw [h]
  simp

/-- Witness for C9: the down pool `c9S` with task 4. -/
theorem addTask_after_down_drops_task_witness :
    addTask c9S 4 = some { c9S with errLogs := c9S.errLogs + 1 } :=
  addTask_after_down_drops_task c9S 4 rfl

/-- C10 — the non-blocking hand-off is a buffered-channel send: on an open
channel, `nbSend` succeeds iff the channel's buffer has a free slot; both
channels made by `NewElasticBuf` have capacity exactly 2; and on a pool
with a nonzero tracker count and NO execution unit at all, `AddTask`'s
hand-off still succeeds whenever the dispatch buffer has a free slot —
the task then sits in the dispatch channel's buffer with no unit claiming
it (the worker count and executed history are unchanged). -/
theorem nbSend_succeeds_iff_free_slot (c : Chan) (x : Task)
    (hc : c.closed = false) (s : PoolState) (t : Task)
    (hw : s.workers = 0) (hd : s.down = false)
    (hn : s.ewg.getWaitCount ≠ 0) (ho : s.outCh.closed = false)
    (hr : s.outCh.hasRoom = true) :
    ((nbSend c x).isSome ↔ c.elems.length < c.cap) ∧
    newElasticBuf.1.cap = 2 ∧ newElasticBuf.2.cap = 2 ∧
    addTask s t = some { s with outCh := s.outCh.push t } := by
  refine ⟨?_, rfl, rfl, ?_⟩
  · unfold nbSend Chan.hasRoom
    rw [hc]
    cases hlt : decide (c.elems.length < c.cap) <;> simp_all
  · unfold addTask
    rw [hd, ho, hr]
    simp [hn]

/-- Witness for C10: the fresh channel, and the pool `c10S` (tracker
count 1, zero workers) receiving task 9. -/
theorem nbSend_succeeds_iff_free_slot_witness :
    ((nbSend mkChan 9).isSome ↔ mkChan.elems.length < mkChan.cap) ∧
    newElasticBuf.1.cap = 2 ∧ newElasticBuf.2.cap = 2 ∧
    addTask c10S 9 = some { c10S with outCh := c10S.outCh.push 9 } :=
  nbSend_succeeds_iff_free_slot mkChan 9 rfl c10S 9 rfl rfl
    (by decide) rfl rfl

end TearUpGo
